import Mathlib

/-!
Verification of the circuit-construction core of CAR-Tor 0.2.4.20
(`src/or/circuitbuild.c`): a shallow embedding of the path-bias
accountant, the circuit-id allocator, the route-length computation and
the relay-side extend responder, with theorems checking the
natural-language specification against the code.

Counters of the guard accounting record are C `double`s in the source;
they are modelled as `ℚ`, which is exact for every value the code can
produce (sums, increments and multiplications by consensus ratios).
Machine integers that matter (circuit ids) are modelled as `Nat` with
explicit ranges.  Logging, rate-limiting and the `entry_guards_changed`
persistence signal have no bearing on any claim and are omitted; the
`pathbias_shouldcount` cache field is likewise used by the source only
to decide whether to emit diagnostic log lines, never to change
behaviour, so it is not carried in the state.
-/

/-- Circuit purposes used by the modelled code paths (from `or.h`, which is
not part of the included sources; the constructors cover every purpose the
modelled functions inspect, plus `general` standing for all others).
`cIntroducing`, `cIntroduceAckWait`, `cIntroduceAcked` are the three
consecutive client-side introduction purposes of the 0.2.4 enum. -/
inductive Purpose where
  | general
  | testing
  | controller
  | sConnectRend
  | sRendJoined
  | sEstablishIntro
  | cIntroducing
  | cIntroduceAckWait
  | cIntroduceAcked
  | cMeasureTimeout
  | pathBiasTesting
deriving DecidableEq

/-- Path-bias lifecycle state of an origin circuit (`path_state_t`). -/
inductive PathState where
  | newCirc
  | buildAttempted
  | buildSucceeded
  | useAttempted
  | useSucceeded
  | useFailed
  | alreadyCounted
deriving DecidableEq

/-- Numeric index of a path state, mirroring the C enum order; the source
compares path states with `<`/`>=` on this order. -/
def PathState.idx : PathState → Nat
  | .newCirc => 0
  | .buildAttempted => 1
  | .buildSucceeded => 2
  | .useAttempted => 3
  | .useSucceeded => 4
  | .useFailed => 5
  | .alreadyCounted => 6

/-- State of one cpath hop (`CPATH_STATE_*`). -/
inductive CpathState where
  | closed
  | awaitingKeys
  | opened
deriving DecidableEq

/-- Channel states the probe sender inspects (`CHANNEL_STATE_*`). -/
inductive ChanState where
  | opened
  | maint
  | closing
  | other
deriving DecidableEq

/-- Channel close reasons (`CHANNEL_CLOSE_*`); only `requested` is
distinguished by the modelled code. -/
inductive ChanCloseReason where
  | requested
  | fromBelow
  | forError
  | other
deriving DecidableEq

/- ---------------------------------------------------------------------
   Route length (`new_route_len`, `count_acceptable_nodes`)
   --------------------------------------------------------------------- -/

/-- Modelled from the spec: `DEFAULT_ROUTE_LEN = 3` (the macro lives in
`or.h`, which is not among the included sources; §4.2 of the spec fixes the
base length at 3). -/
def DEFAULT_ROUTE_LEN : Nat := 3

/-- The fields of a directory node that `count_acceptable_nodes` inspects
(`node_has_descriptor` is modelled as a field since its definition lives
outside the included sources). -/
structure node_t where
  is_running : Bool
  is_valid : Bool
  has_descriptor : Bool

/-- Embedding of `count_acceptable_nodes` (circuitbuild.c:3331): count the
nodes that are running, valid and have a descriptor. -/
def count_acceptable_nodes (nodes : List node_t) : Nat :=
  nodes.countP (fun node => node.is_running && node.is_valid && node.has_descriptor)

/-- Embedding of `new_route_len` (circuitbuild.c:2791).  `exit` is the
optional pre-specified exit (only its presence matters). -/
def new_route_len (purpose : Purpose) (exit : Option Unit) (nodes : List node_t) : Int :=
  let routelen : Nat :=
    if exit.isSome ∧ purpose ≠ Purpose.testing ∧ purpose ≠ Purpose.sEstablishIntro then
      DEFAULT_ROUTE_LEN + 1
    else
      DEFAULT_ROUTE_LEN
  let num_acceptable_routers := count_acceptable_nodes nodes
  if num_acceptable_routers < 2 then
    -1
  else if num_acceptable_routers < routelen then
    (num_acceptable_routers : Int)
  else
    (routelen : Int)

/- ---------------------------------------------------------------------
   Circuit-id allocator (`get_unique_circ_id_by_chan`)
   --------------------------------------------------------------------- -/

/-- Side-bit assignment of a channel (`circ_id_type_t`). -/
inductive CircIdType where
  | lower
  | higher
  | neither
deriving DecidableEq

/-- The channel fields the allocator reads.  `inUse` stands for
`circuit_id_in_use_on_channel` restricted to this channel. -/
structure channel_t where
  circ_id_type : CircIdType
  wide_circ_ids : Bool
  next_circ_id : Nat
  inUse : Nat → Bool

/-- One step of the allocator's do/while loop (circuitbuild.c:115-131),
with explicit fuel.  Arguments: cursor (`chan->next_circ_id`), attempt
counter, fuel.  Returns the allocated id (0 on failure) together with the
number of `circuit_id_in_use_on_channel` probes performed.  `next_circ_id`
is a `circid_t` (`uint32_t`), hence the increment wraps at `2^32`. -/
def circIdLoop (inUse : Nat → Bool) (maxRange highBit : Nat) :
    Nat → Nat → Nat → Nat × Nat
  | _next, _attempts, 0 => (0, 0)
  | next, attempts, fuel + 1 =>
    let t0 := next
    let next1 := (next + 1) % 4294967296
    let test := if t0 = 0 ∨ maxRange ≤ t0 then 1 else t0
    let next2 := if t0 = 0 ∨ maxRange ≤ t0 then 2 else next1
    if maxRange < attempts + 1 then
      (0, 0)
    else
      let tid := test ||| highBit
      if inUse tid then
        let rest := circIdLoop inUse maxRange highBit next2 (attempts + 1) fuel
        (rest.1, rest.2 + 1)
      else
        (tid, 1)

/-- Embedding of `get_unique_circ_id_by_chan` (circuitbuild.c:98).  The
first component is the returned circuit id (0 = failure); the second
instruments the number of in-use probes, needed for the DoS-bound
property.  The fuel `maxRange + 1` covers the attempt cutoff
(`++attempts > max_range`), which fires after at most `maxRange` loop
iterations. -/
def get_unique_circ_id_by_chan (chan : channel_t) : Nat × Nat :=
  if chan.circ_id_type = CircIdType.neither then
    (0, 0)
  else
    let maxRange := if chan.wide_circ_ids then 2 ^ 31 else 2 ^ 15
    let highBit := if chan.circ_id_type = CircIdType.higher then maxRange else 0
    circIdLoop chan.inUse maxRange highBit chan.next_circ_id 0 (maxRange + 1)

/- ---------------------------------------------------------------------
   Extend responder (`circuit_extend`)
   --------------------------------------------------------------------- -/

/-- Parsed contents of an extend cell that `circuit_extend` inspects
(`extend_cell_t`).  The identity digest is modelled as a `Nat`; the
all-zero digest is `0`. -/
structure extend_cell_t where
  port : Nat
  addrIsNull : Bool
  addrIsInternal : Bool
  node_id : Nat

/-- Environment of one `circuit_extend` call: configuration, the parse
result of the inbound cell, the previous hop's identity and the outcomes
of the channel-layer collaborators. -/
structure ExtendEnv where
  serverMode : Bool
  extendAllowPrivateAddresses : Bool
  parsedCell : Option extend_cell_t
  prevHopDigest : Nat
  chanForExtend : Bool
  shouldLaunch : Bool
  connectOk : Bool
  deliverOk : Bool

/-- The circuit fields `circuit_extend` checks before anything else. -/
structure ExtendCirc where
  hasNChan : Bool
  hasNHop : Bool

/-- Embedding of `circuit_extend` (circuitbuild.c:932).  Result: the
returned code (`-1` = warn and tear down, `0` otherwise) paired with
whether the channel layer was contacted (`channel_get_for_extend` and
beyond). -/
def circuit_extend (env : ExtendEnv) (circ : ExtendCirc) : Int × Bool :=
  if circ.hasNChan then (-1, false)
  else if circ.hasNHop then (-1, false)
  else if ¬env.serverMode then (-1, false)
  else
    match env.parsedCell with
    | none => (-1, false)
    | some ec =>
      if ec.port = 0 ∨ ec.addrIsNull then (-1, false)
      else if ec.addrIsInternal ∧ ¬env.extendAllowPrivateAddresses then (-1, false)
      else if ec.node_id = 0 then (-1, false)
      else if ec.node_id = env.prevHopDigest then (-1, false)
      else if env.chanForExtend then
        if env.deliverOk then (0, true) else (-1, true)
      else if env.shouldLaunch ∧ ¬env.connectOk then
        (0, true)
      else
        (0, true)

/- ---------------------------------------------------------------------
   Path-bias accountant: data model
   --------------------------------------------------------------------- -/

/-- The guard accounting record (`entry_guard_t` fields mutated by the
path-bias code).  The C counters are `double`s; `ℚ` models them exactly
for every value the code produces. -/
structure entry_guard_t where
  circ_attempts : ℚ
  circ_successes : ℚ
  successful_circuits_closed : ℚ
  collapsed_circuits : ℚ
  unusable_circuits : ℚ
  timeouts : ℚ
  use_attempts : ℚ
  use_successes : ℚ
  path_bias_noticed : Bool
  path_bias_warned : Bool
  path_bias_extreme : Bool
  path_bias_use_noticed : Bool
  path_bias_use_extreme : Bool
  path_bias_disabled : Bool
  bad_since : Nat
deriving DecidableEq

/-- One cpath hop as seen by the path-bias code: its handshake state and
whether it carries an `extend_info` (the first hop's `extend_info` is what
guard lookups dereference). -/
structure cpath_hop where
  state : CpathState
  hasExtendInfo : Bool
deriving DecidableEq

/-- The outbound channel fields read by `pathbias_check_close` and
`pathbias_send_usable_probe`. -/
structure n_chan_t where
  state : ChanState
  reason_for_closing : ChanCloseReason
deriving DecidableEq

/-- The origin-circuit fields the path-bias code reads and writes.  The
cpath ring is modelled as a list from the first hop outward; `cpath->prev`
of the head is the last element.  `onehop_tunnel` and `desired_path_len`
live in `circ->build_state` in the source. -/
structure origin_circuit_t where
  purpose : Purpose
  path_state : PathState
  has_opened : Bool
  onehop_tunnel : Bool
  desired_path_len : Nat
  cpath : List cpath_hop
  n_chan : Option n_chan_t
  pathbias_probe_id : Nat
  pathbias_probe_nonce : Nat
  timestamp_began : Nat
  timestamp_dirty : Nat
  marked_for_close : Option Int
deriving DecidableEq

/-- Read-only environment of one path-bias call: configuration and
consensus-derived thresholds (the results of the `pathbias_get_*`
getters), the oracle for `pathbias_count_circs_in_states` over the global
circuit list, and the outcomes of the probe's collaborators
(`crypto_rand`, `get_unique_stream_id_by_circ`,
`relay_send_command_from_edge`, clocks). -/
structure PbEnv where
  useEntryGuards : Bool
  minCircs : ℚ
  noticeRate : ℚ
  warnRate : ℚ
  extremeRate : ℚ
  minUse : ℚ
  noticeUseRate : ℚ
  extremeUseRate : ℚ
  dropGuards : Bool
  scaleThreshold : ℚ
  scaleUseThreshold : ℚ
  scaleRatio : ℚ
  openCircsInStates : PathState → PathState → Nat
  now : Nat
  randNonce : Nat
  streamId : Nat
  relaySendOk : Bool

/-- Mutable state of one path-bias call: the circuit, the guard record
found by `entry_guard_get_by_id_digest` on the first hop's `extend_info`
identity digest (`gCpath`, `none` when the hop has no `extend_info` or the
store has no such guard), and the record found by the digest of
`circ->base_.n_chan` (`gChan`, used only by the fallback branch of
`pathbias_count_build_attempt`). -/
structure PbState where
  circ : origin_circuit_t
  gCpath : Option entry_guard_t
  gChan : Option entry_guard_t
deriving DecidableEq

/-- Whether the first cpath hop exists and carries an `extend_info`
(the guard-lookup precondition `circ->cpath && circ->cpath->extend_info`). -/
def firstHopHasEI (c : origin_circuit_t) : Bool :=
  match c.cpath with
  | [] => false
  | hop :: _ => hop.hasExtendInfo

/-- The purposes ignored by `pathbias_should_count` (circuitbuild.c:1363):
testing, controller, server-side rend, and the client-side introduction
range `C_INTRODUCING..C_INTRODUCE_ACKED`. -/
def purposeIgnoredForPathBias (p : Purpose) : Bool :=
  p = Purpose.testing ∨ p = Purpose.controller ∨
  p = Purpose.sConnectRend ∨ p = Purpose.sRendJoined ∨
  p = Purpose.cIntroducing ∨ p = Purpose.cIntroduceAckWait ∨
  p = Purpose.cIntroduceAcked

/-- Embedding of `pathbias_should_count` (circuitbuild.c:1347).  The
source additionally caches the decision in `circ->pathbias_shouldcount`
purely for diagnostic logging; the returned decision never depends on the
cache, so the cache is not modelled. -/
def pathbias_should_count (useEntryGuards : Bool) (c : origin_circuit_t) : Bool :=
  if useEntryGuards = false ∨ purposeIgnoredForPathBias c.purpose then
    false
  else if c.onehop_tunnel ∨ c.desired_path_len = 1 then
    false
  else
    true

/-- Embedding of `pathbias_is_new_circ_attempt` (circuitbuild.c:1320,
`N2N_TAGGING_IS_POSSIBLE` branch): the cpath has a second hop and that
hop is awaiting keys. -/
def pathbias_is_new_circ_attempt (c : origin_circuit_t) : Bool :=
  match c.cpath with
  | _first :: second :: _ => second.state = CpathState.awaitingKeys
  | _ => false

/- ---------------------------------------------------------------------
   The rate getters (`pathbias_get_*`) and consensus parameters
   --------------------------------------------------------------------- -/

/-- Modelled from the spec: consensus-parameter lookup
(`networkstatus_get_param`, networkstatus.c is not among the included
sources).  An absent parameter yields the default; a present value is
clamped into `[minVal, maxVal]` (§4.6: "option override / consensus
parameter with default"). -/
def networkstatus_get_param (value : Option Int) (dflt minVal maxVal : Int) : Int :=
  match value with
  | none => dflt
  | some v => if v < minVal then minVal else if maxVal < v then maxVal else v

/-- Embedding of `pathbias_get_scale_threshold` (circuitbuild.c:1184):
the configured `PathBiasScaleThreshold` when at least 10, else the
`pb_scalecircs` consensus parameter with default
`DFLT_PATH_BIAS_SCALE_THRESHOLD = 300`. -/
def pathbias_get_scale_threshold (optionValue : Int) (consensusParam : Option Int) : Int :=
  if 10 ≤ optionValue then optionValue
  else networkstatus_get_param consensusParam 300 10 2147483647

/-- Embedding of `pathbias_get_scale_ratio` (circuitbuild.c:1203):
`pb_multfactor / pb_scalefactor`, the denominator clamped into
`[2, INT32_MAX]` with default 2, the numerator into `[1, denominator]`
with default 1. -/
def pathbias_get_scale_ratio (multParam scaleParam : Option Int) : ℚ :=
  let denominator := networkstatus_get_param scaleParam 2 2 2147483647
  (networkstatus_get_param multParam 1 1 denominator : ℚ) / (denominator : ℚ)

/- ---------------------------------------------------------------------
   Counters with benefit of the doubt, measuring and scaling
   --------------------------------------------------------------------- -/

/-- Embedding of `pathbias_get_close_success_count` (circuitbuild.c:2235):
closed successes plus the currently open circuits in path states
`[buildSucceeded, useSucceeded]`. -/
def pathbias_get_close_success_count (g : entry_guard_t) (env : PbEnv) : ℚ :=
  g.successful_circuits_closed +
    (env.openCircsInStates PathState.buildSucceeded PathState.useSucceeded : ℚ)

/-- Embedding of `pathbias_get_use_success_count` (circuitbuild.c:2251):
use successes plus the currently open circuits in path states
`[useAttempted, useSucceeded]`. -/
def pathbias_get_use_success_count (g : entry_guard_t) (env : PbEnv) : ℚ :=
  g.use_successes +
    (env.openCircsInStates PathState.useAttempted PathState.useSucceeded : ℚ)

/-- Embedding of `pathbias_measure_close_rate` (circuitbuild.c:2374):
latch the notice/warn/extreme flags, and with `pb_dropguards` disable the
guard, when the close-success rate falls below the thresholds. -/
def pathbias_measure_close_rate (g : entry_guard_t) (env : PbEnv) : entry_guard_t :=
  if env.minCircs < g.circ_attempts then
    if pathbias_get_close_success_count g env / g.circ_attempts < env.extremeRate then
      if env.dropGuards then
        if ¬g.path_bias_disabled then
          { g with path_bias_disabled := true, bad_since := env.now }
        else g
      else if ¬g.path_bias_extreme then
        { g with path_bias_extreme := true }
      else g
    else if pathbias_get_close_success_count g env / g.circ_attempts < env.warnRate then
      if ¬g.path_bias_warned then { g with path_bias_warned := true } else g
    else if pathbias_get_close_success_count g env / g.circ_attempts < env.noticeRate then
      if ¬g.path_bias_noticed then { g with path_bias_noticed := true } else g
    else g
  else g

/-- Embedding of `pathbias_measure_use_rate` (circuitbuild.c:2269):
the use-rate analogue of `pathbias_measure_close_rate`. -/
def pathbias_measure_use_rate (g : entry_guard_t) (env : PbEnv) : entry_guard_t :=
  if env.minUse < g.use_attempts then
    if pathbias_get_use_success_count g env / g.use_attempts < env.extremeUseRate then
      if env.dropGuards then
        if ¬g.path_bias_disabled then
          { g with path_bias_disabled := true, bad_since := env.now }
        else g
      else if ¬g.path_bias_use_extreme then
        { g with path_bias_use_extreme := true }
      else g
    else if pathbias_get_use_success_count g env / g.use_attempts < env.noticeUseRate then
      if ¬g.path_bias_use_noticed then { g with path_bias_use_noticed := true } else g
    else g
  else g

/-- Embedding of `pathbias_scale_close_rates` (circuitbuild.c:2495): when
`circ_attempts` exceeds the scale threshold, shrink all close counters by
`scaleRatio`, first removing the currently open circuits from the attempt
and success counters and re-adding them afterwards.  The source's
`counts_are_sane` check only logs and is omitted. -/
def pathbias_scale_close_rates (g : entry_guard_t) (env : PbEnv) : entry_guard_t :=
  if env.scaleThreshold < g.circ_attempts then
    let opened_attempts : ℚ :=
      (env.openCircsInStates PathState.buildAttempted PathState.buildAttempted : ℚ)
    let opened_built : ℚ :=
      (env.openCircsInStates PathState.buildSucceeded PathState.useFailed : ℚ)
    { g with
      circ_attempts :=
        (g.circ_attempts - (opened_attempts + opened_built)) * env.scaleRatio
          + (opened_attempts + opened_built),
      circ_successes := (g.circ_successes - opened_built) * env.scaleRatio + opened_built,
      timeouts := g.timeouts * env.scaleRatio,
      successful_circuits_closed := g.successful_circuits_closed * env.scaleRatio,
      collapsed_circuits := g.collapsed_circuits * env.scaleRatio,
      unusable_circuits := g.unusable_circuits * env.scaleRatio }
  else g

/-- Embedding of `pathbias_scale_use_rates` (circuitbuild.c:2554): the
use-counter analogue of `pathbias_scale_close_rates`. -/
def pathbias_scale_use_rates (g : entry_guard_t) (env : PbEnv) : entry_guard_t :=
  if env.scaleUseThreshold < g.use_attempts then
    let opened_attempts : ℚ :=
      (env.openCircsInStates PathState.useAttempted PathState.useSucceeded : ℚ)
    { g with
      use_attempts := (g.use_attempts - opened_attempts) * env.scaleRatio + opened_attempts,
      use_successes := g.use_successes * env.scaleRatio }
  else g

/- ---------------------------------------------------------------------
   Close-reason codes
   --------------------------------------------------------------------- -/

/-- Modelled from the spec: circuit close reasons are small integers from
`or.h` (not among the included sources); `END_CIRC_REASON_FLAG_REMOTE`
(bit 9, value 512) marks a reason as coming from the far side (§7). -/
def END_CIRC_REASON_FLAG_REMOTE : Nat := 512

/-- Modelled from the spec: the `TORPROTOCOL` close reason code (`or.h`);
the claims depend only on its identity, not its numeric value. -/
def END_CIRC_REASON_TORPROTOCOL : Int := 1

/-- Modelled from the spec: the `CHANNEL_CLOSED` close reason code
(`or.h`). -/
def END_CIRC_REASON_CHANNEL_CLOSED : Nat := 8

/-- Modelled from the spec: the `FINISHED` close reason code (`or.h`). -/
def END_CIRC_REASON_FINISHED : Int := 9

/-- Strip `END_CIRC_REASON_FLAG_REMOTE` from a close reason (the source's
`reason & ~END_CIRC_REASON_FLAG_REMOTE`): clear bit 9 if set. -/
def stripRemote (reason : Nat) : Nat :=
  if reason &&& END_CIRC_REASON_FLAG_REMOTE ≠ 0 then
    reason - END_CIRC_REASON_FLAG_REMOTE
  else reason

/- ---------------------------------------------------------------------
   Attempt counting (`entry_guard_inc_circ_attempt_count`,
   `pathbias_count_build_attempt`)
   --------------------------------------------------------------------- -/

/-- Embedding of `entry_guard_inc_circ_attempt_count` (circuitbuild.c:2598):
measure the close rate, refuse disabled guards, scale, then increment
`circ_attempts`.  Returns the status (`-1` = guard no good, `0` = fine)
and the updated guard. -/
def entry_guard_inc_circ_attempt_count (g : entry_guard_t) (env : PbEnv) :
    Int × entry_guard_t :=
  let g1 := pathbias_measure_close_rate g env
  if g1.path_bias_disabled then
    (-1, g1)
  else
    let g2 := pathbias_scale_close_rates g1 env
    (0, { g2 with circ_attempts := g2.circ_attempts + 1 })

/-- Embedding of `pathbias_count_build_attempt` (circuitbuild.c:1446).
The guard for the attempt is looked up by the first hop's `extend_info`
digest, falling back to the digest of `circ->base_.n_chan` when the first
hop carries no `extend_info`. -/
def pathbias_count_build_attempt (env : PbEnv) (s : PbState) : Int × PbState :=
  if ¬pathbias_should_count env.useEntryGuards s.circ then
    (0, s)
  else if pathbias_is_new_circ_attempt s.circ then
    if ¬s.circ.has_opened then
      if firstHopHasEI s.circ then
        match s.gCpath with
        | some guard =>
          if s.circ.path_state = PathState.newCirc then
            let s1 := { s with circ := { s.circ with path_state := PathState.buildAttempted } }
            let (rv, guard1) := entry_guard_inc_circ_attempt_count guard env
            if rv < 0 then
              (-END_CIRC_REASON_TORPROTOCOL, { s1 with gCpath := some guard1 })
            else
              (0, { s1 with gCpath := some guard1 })
          else
            (0, s)
        | none => (0, s)
      else if s.circ.n_chan.isSome then
        match s.gChan with
        | some guard =>
          if s.circ.path_state = PathState.newCirc then
            let s1 := { s with circ := { s.circ with path_state := PathState.buildAttempted } }
            let (rv, guard1) := entry_guard_inc_circ_attempt_count guard env
            if rv < 0 then
              (-END_CIRC_REASON_TORPROTOCOL, { s1 with gChan := some guard1 })
            else
              (0, { s1 with gChan := some guard1 })
          else
            (0, s)
        | none => (0, s)
      else
        (0, s)
    else
      (0, s)
  else
    (0, s)

/- ---------------------------------------------------------------------
   Per-close counting helpers
   --------------------------------------------------------------------- -/

/-- Embedding of `pathbias_count_successful_close` (circuitbuild.c:2053):
bump the guard's `successful_circuits_closed`. -/
def pathbias_count_successful_close (env : PbEnv) (s : PbState) : PbState :=
  if ¬pathbias_should_count env.useEntryGuards s.circ then s
  else if firstHopHasEI s.circ then
    match s.gCpath with
    | some g =>
      { s with
        gCpath := some ({ g with
          successful_circuits_closed := g.successful_circuits_closed + 1 }) }
    | none => s
  else s

/-- Embedding of `pathbias_count_collapse` (circuitbuild.c:2091): bump the
guard's `collapsed_circuits`. -/
def pathbias_count_collapse (env : PbEnv) (s : PbState) : PbState :=
  if ¬pathbias_should_count env.useEntryGuards s.circ then s
  else if firstHopHasEI s.circ then
    match s.gCpath with
    | some g =>
      { s with gCpath := some ({ g with collapsed_circuits := g.collapsed_circuits + 1 }) }
    | none => s
  else s

/-- Embedding of `pathbias_count_use_failed` (circuitbuild.c:2125): bump
the guard's `unusable_circuits`. -/
def pathbias_count_use_failed (env : PbEnv) (s : PbState) : PbState :=
  if ¬pathbias_should_count env.useEntryGuards s.circ then s
  else if firstHopHasEI s.circ then
    match s.gCpath with
    | some g =>
      { s with gCpath := some ({ g with unusable_circuits := g.unusable_circuits + 1 }) }
    | none => s
  else s

/-- Embedding of `pathbias_count_use_success` (circuitbuild.c:1730): bump
the guard's `use_successes` when the circuit's path state is
`useSucceeded`.  The source dereferences `circ->cpath->extend_info`
without a null check here; the model performs the same guard lookup as
its sibling counters (which is defined whenever the source is). -/
def pathbias_count_use_success (env : PbEnv) (s : PbState) : PbState :=
  if ¬pathbias_should_count env.useEntryGuards s.circ then s
  else if s.circ.path_state ≠ PathState.useSucceeded then s
  else if firstHopHasEI s.circ then
    match s.gCpath with
    | some g =>
      { s with gCpath := some ({ g with use_successes := g.use_successes + 1 }) }
    | none => s
  else s

/-- Embedding of `pathbias_count_timeout` (circuitbuild.c:2160): bump the
guard's `timeouts`, except for circuits that already reached
`useSucceeded` (hidden-service circuits can be used successfully and time
out later). -/
def pathbias_count_timeout (env : PbEnv) (s : PbState) : PbState :=
  if ¬pathbias_should_count env.useEntryGuards s.circ then s
  else if s.circ.path_state = PathState.useSucceeded then s
  else if firstHopHasEI s.circ then
    match s.gCpath with
    | some g => { s with gCpath := some ({ g with timeouts := g.timeouts + 1 }) }
    | none => s
  else s

/-- Embedding of `pathbias_count_use_attempt` (circuitbuild.c:1621):
measure and scale the use rates, bump `use_attempts`, and advance the
path state to `useAttempted`. -/
def pathbias_count_use_attempt (env : PbEnv) (s : PbState) : PbState :=
  if ¬pathbias_should_count env.useEntryGuards s.circ then s
  else if s.circ.path_state.idx < PathState.buildSucceeded.idx then s
  else if s.circ.path_state.idx < PathState.useAttempted.idx then
    let s1 :=
      if firstHopHasEI s.circ then
        match s.gCpath with
        | some g =>
          let g1 := pathbias_measure_use_rate g env
          let g2 := pathbias_scale_use_rates g1 env
          { s with gCpath := some ({ g2 with use_attempts := g2.use_attempts + 1 }) }
        | none => s
      else s
    { s1 with circ := { s1.circ with path_state := PathState.useAttempted } }
  else s

/-- Embedding of `pathbias_mark_use_success` (circuitbuild.c:1677): count
a use attempt first if the circuit never reached `useAttempted`, then set
the path state to `useSucceeded` (guard counters are bumped only at
close). -/
def pathbias_mark_use_success (env : PbEnv) (s : PbState) : PbState :=
  if ¬pathbias_should_count env.useEntryGuards s.circ then s
  else
    let s1 :=
      if s.circ.path_state.idx < PathState.useAttempted.idx then
        pathbias_count_use_attempt env s
      else s
    { s1 with circ := { s1.circ with path_state := PathState.useSucceeded } }

/- ---------------------------------------------------------------------
   End-of-life probe
   --------------------------------------------------------------------- -/

/-- Modelled from the spec: relay-cell command and stream-end reason codes
(`or.h`, not among the included sources). -/
def RELAY_COMMAND_END : Nat := 3

/-- Modelled from the spec: `END_STREAM_REASON_MISC` (`or.h`). -/
def END_STREAM_REASON_MISC : Nat := 1

/-- Modelled from the spec: `END_STREAM_REASON_EXITPOLICY` (`or.h`). -/
def END_STREAM_REASON_EXITPOLICY : Nat := 4

/-- Dotted-quad rendering of a host-order IPv4 value (`tor_dup_ip`). -/
def tor_dup_ip (n : Nat) : String :=
  toString (n / 16777216 % 256) ++ "." ++ toString (n / 65536 % 256) ++ "." ++
    toString (n / 256 % 256) ++ "." ++ toString (n % 256)

/-- The probe payload `"%s:25"` built from the probe nonce
(circuitbuild.c:1844). -/
def probePayload (nonce : Nat) : String :=
  tor_dup_ip nonce ++ ":25"

/-- Embedding of `circuit_mark_for_close`: record the close reason; the
call is idempotent, later reasons do not overwrite the first. -/
def circuit_mark_for_close (c : origin_circuit_t) (reason : Int) : origin_circuit_t :=
  match c.marked_for_close with
  | some _ => c
  | none => { c with marked_for_close := some reason }

/-- Embedding of `pathbias_send_usable_probe` (circuitbuild.c:1790).
Returns the status (`-1` = could not probe, `0` = probe sent), the
updated circuit, and the `RELAY_BEGIN` payload handed to
`relay_send_command_from_edge` (`none` when no send was attempted).  The
source dereferences `ocirc->cpath->prev` unconditionally; an empty cpath
cannot reach this call and is mapped to the no-probe result. -/
def pathbias_send_usable_probe (env : PbEnv) (c : origin_circuit_t) :
    Int × origin_circuit_t × Option String :=
  match c.cpath.getLast? with
  | none => (-1, c, none)
  | some lastHop =>
    if lastHop.state ≠ CpathState.opened then
      (-1, c, none)
    else if c.purpose = Purpose.pathBiasTesting ∧ c.pathbias_probe_id ≠ 0 then
      (-1, c, none)
    else
      match c.n_chan with
      | none => (-1, c, none)
      | some ch =>
        if ch.state ≠ ChanState.opened ∧ ch.state ≠ ChanState.maint then
          (-1, c, none)
        else
          let c1 := { c with
            purpose := Purpose.pathBiasTesting,
            timestamp_began := env.now,
            pathbias_probe_nonce := env.randNonce &&& 16777215,
            pathbias_probe_id := env.streamId }
          let payload := probePayload (env.randNonce &&& 16777215)
          if env.streamId = 0 then
            (-1, c1, none)
          else if ¬env.relaySendOk then
            (-1, c1, some payload)
          else
            (0, { c1 with timestamp_dirty := env.now }, some payload)

/-- The pieces of a relay cell that `pathbias_check_probe_response` reads:
the unpacked relay header and the first payload bytes (`reasonByte` is
payload byte 0, `ipv4Field` the host-order value of payload bytes 1-4). -/
structure relay_cell_t where
  command : Nat
  length : Nat
  stream_id : Nat
  reasonByte : Nat
  ipv4Field : Nat

/-- Embedding of `pathbias_check_probe_response` (circuitbuild.c:1893):
accept exactly a `RELAY_END` on the probe's stream with reason
`EXITPOLICY`, a length of at least 9, and the nonce echoed in the address
field; on acceptance mark use success and close with `FINISHED`. -/
def pathbias_check_probe_response (env : PbEnv) (s : PbState) (cell : relay_cell_t) :
    Int × PbState :=
  let reason := if 0 < cell.length then cell.reasonByte else END_STREAM_REASON_MISC
  if cell.command = RELAY_COMMAND_END ∧ reason = END_STREAM_REASON_EXITPOLICY ∧
      s.circ.pathbias_probe_id = cell.stream_id then
    if cell.length < 9 then
      (-END_CIRC_REASON_TORPROTOCOL, s)
    else if cell.ipv4Field = s.circ.pathbias_probe_nonce then
      let s1 := pathbias_mark_use_success env s
      (0, { s1 with circ := circuit_mark_for_close s1.circ END_CIRC_REASON_FINISHED })
    else
      (-1, s)
  else
    (-1, s)

/- ---------------------------------------------------------------------
   Close accounting (`pathbias_check_close`)
   --------------------------------------------------------------------- -/

/-- Whether the outbound channel exists and reports a close reason other
than `CHANNEL_CLOSE_REQUESTED` (the "we did not close it ourselves" test
of circuitbuild.c:1987). -/
def chanClosedNotByUs (c : origin_circuit_t) : Bool :=
  match c.n_chan with
  | some ch => decide (ch.reason_for_closing ≠ ChanCloseReason.requested)
  | none => false

/-- Embedding of `pathbias_check_close` (circuitbuild.c:1961): dispatch the
close accounting on the circuit's path state, set the path state to
`alreadyCounted`, and return `0`, except when an end-of-life probe was
sent, in which case return `-1` and leave the path state for the probe
response. -/
def pathbias_check_close (env : PbEnv) (s : PbState) (reason : Nat) : Int × PbState :=
  if ¬pathbias_should_count env.useEntryGuards s.circ then
    (0, s)
  else
    match s.circ.path_state with
    | PathState.buildSucceeded =>
      let s1 :=
        if reason &&& END_CIRC_REASON_FLAG_REMOTE ≠ 0 then
          pathbias_count_collapse env s
        else if stripRemote reason = END_CIRC_REASON_CHANNEL_CLOSED ∧
            chanClosedNotByUs s.circ then
          pathbias_count_collapse env s
        else
          pathbias_count_successful_close env s
      (0, { s1 with circ := { s1.circ with path_state := PathState.alreadyCounted } })
    | PathState.useAttempted =>
      let pr := pathbias_send_usable_probe env s.circ
      if pr.1 = 0 then
        (-1, { s with circ := pr.2.1 })
      else
        let s1 := pathbias_count_use_failed env { s with circ := pr.2.1 }
        (0, { s1 with circ := { s1.circ with path_state := PathState.alreadyCounted } })
    | PathState.useSucceeded =>
      let s1 := pathbias_count_successful_close env s
      let s2 := pathbias_count_use_success env s1
      (0, { s2 with circ := { s2.circ with path_state := PathState.alreadyCounted } })
    | PathState.useFailed =>
      let s1 := pathbias_count_use_failed env s
      (0, { s1 with circ := { s1.circ with path_state := PathState.alreadyCounted } })
    | _ =>
      (0, { s with circ := { s.circ with path_state := PathState.alreadyCounted } })

/- ---------------------------------------------------------------------
   Sample inputs used by the concrete witnesses
   --------------------------------------------------------------------- -/

/-- Sample environment with the default consensus thresholds and no open
circuits, used by the concrete witnesses. -/
def sampleEnv : PbEnv where
  useEntryGuards := true
  minCircs := 150
  noticeRate := 7/10
  warnRate := 1/2
  extremeRate := 3/10
  minUse := 20
  noticeUseRate := 4/5
  extremeUseRate := 3/5
  dropGuards := false
  scaleThreshold := 300
  scaleUseThreshold := 100
  scaleRatio := 1/2
  openCircsInStates := fun _ _ => 0
  now := 1000
  randNonce := 2864434397
  streamId := 42
  relaySendOk := true

/-- A fresh guard record with zeroed counters, used by the witnesses. -/
def zeroGuard : entry_guard_t where
  circ_attempts := 0
  circ_successes := 0
  successful_circuits_closed := 0
  collapsed_circuits := 0
  unusable_circuits := 0
  timeouts := 0
  use_attempts := 0
  use_successes := 0
  path_bias_noticed := false
  path_bias_warned := false
  path_bias_extreme := false
  path_bias_use_noticed := false
  path_bias_use_extreme := false
  path_bias_disabled := false
  bad_since := 0

/-- A three-hop general-purpose circuit whose hops are open and whose first
hop carries an `extend_info`, used by the witnesses. -/
def baseCirc : origin_circuit_t where
  purpose := Purpose.general
  path_state := PathState.newCirc
  has_opened := false
  onehop_tunnel := false
  desired_path_len := 3
  cpath := [⟨CpathState.opened, true⟩, ⟨CpathState.opened, true⟩, ⟨CpathState.opened, true⟩]
  n_chan := some ⟨ChanState.opened, ChanCloseReason.other⟩
  pathbias_probe_id := 0
  pathbias_probe_nonce := 0
  timestamp_began := 0
  timestamp_dirty := 0
  marked_for_close := none

/-- Guard seeded as in the S4 scaling scenario of the spec. -/
def seededGuard : entry_guard_t :=
  { zeroGuard with
    circ_attempts := 301
    circ_successes := 250
    successful_circuits_closed := 240 }

/-- A circuit mid-handshake: first hop open, second hop awaiting keys,
used by the attempt-counting witness. -/
def attemptCirc : origin_circuit_t :=
  { baseCirc with
    cpath := [⟨CpathState.opened, true⟩, ⟨CpathState.awaitingKeys, true⟩,
      ⟨CpathState.closed, true⟩] }

/-- A probing circuit awaiting its probe response (probe stream 5, nonce
7), used by the probe-response witness and counterexample. -/
def probingCirc : origin_circuit_t :=
  { baseCirc with
    purpose := Purpose.pathBiasTesting
    path_state := PathState.useAttempted
    pathbias_probe_id := 5
    pathbias_probe_nonce := 7 }

/- ---------------------------------------------------------------------
   Theorems
   --------------------------------------------------------------------- -/

/-- Or-ing a power of two onto a smaller number is addition (splits the
allocator's side bit from the probed identifier). -/
theorem lor_two_pow_of_lt {t k : Nat} (h : t < 2 ^ k) : t ||| 2 ^ k = t + 2 ^ k := by
  apply Nat.eq_of_testBit_eq
  intro i
  rw [Nat.testBit_lor]
  rcases Nat.lt_trichotomy i k with hik | rfl | hik
  · rw [Nat.testBit_two_pow_of_ne (ne_of_gt hik)]
    rw [Bool.or_false, Nat.testBit_to_div_mod, Nat.testBit_to_div_mod]
    have hks : 2 ^ k = 2 ^ (k - i) * 2 ^ i := by
      rw [← pow_add]
      congr 1
      omega
    have hdiv : (t + 2 ^ k) / 2 ^ i = t / 2 ^ i + 2 ^ (k - i) := by
      rw [hks, Nat.add_mul_div_right _ _ (Nat.pos_pow_of_pos i (by norm_num))]
    have hsplit : 2 ^ (k - i) = 2 ^ (k - i - 1) * 2 := by
      rw [← pow_succ]
      congr 1
      omega
    have heq : (t + 2 ^ k) / 2 ^ i % 2 = t / 2 ^ i % 2 := by
      rw [hdiv, hsplit, Nat.add_mul_mod_self_right]
    rw [heq]
  · rw [Nat.testBit_two_pow_self, Bool.or_true]
    rw [Nat.testBit_to_div_mod]
    have hdiv : (t + 2 ^ i) / 2 ^ i = 1 := by
      rw [Nat.add_div_right _ (Nat.pos_pow_of_pos i (by norm_num)), Nat.div_eq_of_lt h]
    rw [hdiv]
    decide
  · have h1 : Nat.testBit t i = false :=
      Nat.testBit_eq_false_of_lt
        (lt_of_lt_of_le h (Nat.pow_le_pow_right (by norm_num) (le_of_lt hik)))
    have h2 : Nat.testBit (2 ^ k) i = false := Nat.testBit_two_pow_of_ne (ne_of_lt hik)
    have h3 : Nat.testBit (t + 2 ^ k) i = false := by
      apply Nat.testBit_eq_false_of_lt
      have hlt : t + 2 ^ k < 2 ^ (k + 1) := by
        rw [pow_succ]
        omega
      exact lt_of_lt_of_le hlt (Nat.pow_le_pow_right (by norm_num) hik)
    rw [h1, h2, h3, Bool.or_false]

/-- When every identifier is in use, the allocator's loop exhausts its
attempt budget, probing once per iteration. -/
theorem circIdLoop_all_used (inUse : Nat → Bool) (maxRange highBit : Nat)
    (hall : ∀ i, inUse i = true) :
    ∀ fuel next attempts, attempts + fuel = maxRange + 1 → 1 ≤ fuel →
      circIdLoop inUse maxRange highBit next attempts fuel = (0, fuel - 1) := by
  intro fuel
  induction fuel with
  | zero =>
    intro next attempts _ hge
    omega
  | succ f ih =>
    intro next attempts hsum _
    by_cases hcut : maxRange < attempts + 1
    · have hf : f = 0 := by omega
      subst hf
      simp [circIdLoop, hcut]
    · have hf1 : 1 ≤ f := by omega
      simp only [circIdLoop, if_neg hcut, hall, if_true]
      rw [ih _ (attempts + 1) (by omega) hf1]
      simp
      omega

/-- A nonzero result of the allocator's loop is an unused identifier of
the form `t ||| highBit` with `t` inside the probing range. -/
theorem circIdLoop_success (inUse : Nat → Bool) (maxRange highBit : Nat)
    (h2 : 2 ≤ maxRange) :
    ∀ fuel next attempts,
      (circIdLoop inUse maxRange highBit next attempts fuel).1 ≠ 0 →
      inUse (circIdLoop inUse maxRange highBit next attempts fuel).1 = false ∧
      ∃ t, 1 ≤ t ∧ t < maxRange ∧
        (circIdLoop inUse maxRange highBit next attempts fuel).1 = t ||| highBit := by
  intro fuel
  induction fuel with
  | zero =>
    intro next attempts hne
    simp [circIdLoop] at hne
  | succ f ih =>
    intro next attempts hne
    by_cases hcut : maxRange < attempts + 1
    · simp [circIdLoop, hcut] at hne
    · by_cases huse :
        inUse ((if next = 0 ∨ maxRange ≤ next then 1 else next) ||| highBit) = true
      · simp only [circIdLoop, if_neg hcut, huse, if_true] at hne ⊢
        exact ih _ (attempts + 1) hne
      · rw [Bool.not_eq_true] at huse
        simp only [circIdLoop, if_neg hcut, huse, Bool.false_eq_true, if_false] at hne ⊢
        refine ⟨trivial, ?_⟩
        by_cases hc : next = 0 ∨ maxRange ≤ next
        · exact ⟨1, le_refl 1, by omega, by simp [hc]⟩
        · push_neg at hc
          exact ⟨next, by omega, by omega, by simp [hc.1, hc.2, Nat.not_le.mpr hc.2]⟩


/-- C8: the circuit-id allocator fails on `NEITHER` channels; with every
identifier in use it returns 0 after exactly `2^width` in-use probes
(width 15 or 31 per the wide-ids flag); a nonzero result is not in use,
its value without the high bit lies in `[1, 2^width - 1]`, and the high
bit is set iff the channel's side is `HIGHER`. -/
theorem C8_circ_id_allocator (chan : channel_t) :
    (chan.circ_id_type = CircIdType.neither → get_unique_circ_id_by_chan chan = (0, 0)) ∧
    (chan.circ_id_type ≠ CircIdType.neither →
      (∀ i, chan.inUse i = true) →
      (get_unique_circ_id_by_chan chan).1 = 0 ∧
      (get_unique_circ_id_by_chan chan).2 =
        2 ^ (if chan.wide_circ_ids then 31 else 15)) ∧
    ((get_unique_circ_id_by_chan chan).1 ≠ 0 →
      chan.inUse (get_unique_circ_id_by_chan chan).1 = false ∧
      1 ≤ (get_unique_circ_id_by_chan chan).1 %
            2 ^ (if chan.wide_circ_ids then 31 else 15) ∧
      (get_unique_circ_id_by_chan chan).1 %
          2 ^ (if chan.wide_circ_ids then 31 else 15) ≤
        2 ^ (if chan.wide_circ_ids then 31 else 15) - 1 ∧
      (2 ^ (if chan.wide_circ_ids then 31 else 15) ≤
          (get_unique_circ_id_by_chan chan).1 ↔
        chan.circ_id_type = CircIdType.higher)) := by
  have hMpow :
      (if chan.wide_circ_ids then 2 ^ 31 else 2 ^ 15) =
        2 ^ (if chan.wide_circ_ids then 31 else 15) := by
    cases chan.wide_circ_ids <;> norm_num
  refine ⟨?_, ?_, ?_⟩
  · intro hne
    simp [get_unique_circ_id_by_chan, hne]
  · intro hty hall
    simp only [get_unique_circ_id_by_chan, if_neg hty]
    rw [hMpow]
    rw [circIdLoop_all_used chan.inUse _ _ hall _ chan.next_circ_id 0 (by omega)
        (by omega)]
    exact ⟨rfl, by simp⟩
  · intro hne0
    have hty : chan.circ_id_type ≠ CircIdType.neither := by
      intro h
      apply hne0
      simp [get_unique_circ_id_by_chan, h]
    simp only [get_unique_circ_id_by_chan, if_neg hty] at hne0 ⊢
    rw [hMpow] at hne0 ⊢
    have h2 : 2 ≤ 2 ^ (if chan.wide_circ_ids then 31 else 15) := by
      cases chan.wide_circ_ids <;> norm_num
    obtain ⟨hunused, t, ht1, ht2, hteq⟩ :=
      circIdLoop_success chan.inUse _ _ h2 _ chan.next_circ_id 0 hne0
    rw [hteq] at hunused ⊢
    by_cases hh : chan.circ_id_type = CircIdType.higher
    · simp only [if_pos hh] at hunused ⊢
      rw [lor_two_pow_of_lt ht2] at hunused ⊢
      rw [Nat.add_mod_right, Nat.mod_eq_of_lt ht2]
      refine ⟨hunused, ht1, by omega, ?_⟩
      constructor
      · intro _
        exact hh
      · intro _
        exact Nat.le_add_left _ _
    · simp only [if_neg hh] at hunused ⊢
      rw [Nat.or_zero] at hunused ⊢
      rw [Nat.mod_eq_of_lt ht2]
      refine ⟨hunused, ht1, by omega, ?_⟩
      constructor
      · intro hle
        exact absurd hle (by omega)
      · intro hhi
        exact absurd hhi hh

/-- C8 witness: the allocator theorem applied at concrete channels: a
`NEITHER` channel, a narrow `LOWER` channel with every identifier in use,
and a narrow `LOWER` channel with no identifier in use and cursor 5
(which allocates 5 on the first probe). -/
theorem C8_circ_id_allocator_witness :
    get_unique_circ_id_by_chan ⟨CircIdType.neither, false, 1, fun _ => false⟩ = (0, 0) ∧
    ((get_unique_circ_id_by_chan ⟨CircIdType.lower, false, 1, fun _ => true⟩).1 = 0 ∧
      (get_unique_circ_id_by_chan ⟨CircIdType.lower, false, 1, fun _ => true⟩).2 =
        2 ^ 15) ∧
    ((get_unique_circ_id_by_chan ⟨CircIdType.lower, false, 5, fun _ => false⟩).1 ≠ 0 ∧
      (fun _ => false : Nat → Bool)
          (get_unique_circ_id_by_chan ⟨CircIdType.lower, false, 5, fun _ => false⟩).1 =
        false ∧
      1 ≤ (get_unique_circ_id_by_chan ⟨CircIdType.lower, false, 5, fun _ => false⟩).1 %
            2 ^ 15) := by
  have hfree :
      (get_unique_circ_id_by_chan ⟨CircIdType.lower, false, 5, fun _ => false⟩).1 ≠ 0 := by
    decide
  refine ⟨?_, ?_, hfree, ?_, ?_⟩
  · exact (C8_circ_id_allocator ⟨CircIdType.neither, false, 1, fun _ => false⟩).1 rfl
  · have h := (C8_circ_id_allocator ⟨CircIdType.lower, false, 1, fun _ => true⟩).2.1
        (by decide) (fun i => rfl)
    simpa using h
  · exact ((C8_circ_id_allocator ⟨CircIdType.lower, false, 5, fun _ => false⟩).2.2
        hfree).1
  · have h := ((C8_circ_id_allocator ⟨CircIdType.lower, false, 5, fun _ => false⟩).2.2
        hfree).2.1
    simpa using h

/-- C7: `new_route_len` returns -1 when fewer than 2 nodes are acceptable
(running, valid, with descriptor); otherwise it returns the minimum of L
and the number of acceptable nodes, where L is 3, plus 1 when an exit is
given and the purpose is neither `TESTING` nor `S_ESTABLISH_INTRO`. -/
theorem C7_new_route_len_clamp (purpose : Purpose) (exit : Option Unit)
    (nodes : List node_t) :
    new_route_len purpose exit nodes =
      if count_acceptable_nodes nodes < 2 then -1
      else
        ((min
            (if exit.isSome ∧ purpose ≠ Purpose.testing ∧
                purpose ≠ Purpose.sEstablishIntro then
              3 + 1
            else 3)
            (count_acceptable_nodes nodes) : Nat) : Int) := by
  simp only [new_route_len, DEFAULT_ROUTE_LEN]
  by_cases hex : exit.isSome ∧ purpose ≠ Purpose.testing ∧ purpose ≠ Purpose.sEstablishIntro
  · simp only [if_pos hex]
    split_ifs <;> simp <;> omega
  · simp only [if_neg hex]
    split_ifs <;> simp <;> omega

/-- C9: `circuit_extend` returns -1 without contacting the channel layer
when the circuit already has an outbound channel or pending next hop, the
process is not a relay, the cell fails to parse, the destination port is
zero or the address null, the address is private with
`ExtendAllowPrivateAddresses` off, the target identity is all zero, or
the target identity equals the previous hop's identity. -/
theorem C9_circuit_extend_rejects (env : ExtendEnv) (circ : ExtendCirc)
    (h : circ.hasNChan = true ∨ circ.hasNHop = true ∨ env.serverMode = false ∨
      env.parsedCell = none ∨
      (∃ ec, env.parsedCell = some ec ∧
        (ec.port = 0 ∨ ec.addrIsNull = true ∨
          (ec.addrIsInternal = true ∧ env.extendAllowPrivateAddresses = false) ∨
          ec.node_id = 0 ∨ ec.node_id = env.prevHopDigest))) :
    circuit_extend env circ = (-1, false) := by
  rcases h with h | h | h | h | ⟨ec, hec, hcond⟩
  · simp [circuit_extend, h]
  · simp [circuit_extend, h]
  · simp [circuit_extend, h]
  · simp [circuit_extend, h]
  · simp only [circuit_extend, hec]
    split_ifs <;> first
      | rfl
      | (exfalso
         simp only [Bool.not_eq_true] at *
         tauto)

/-- C9 witness: the extend-responder theorem at a concrete input: an
extend cell to a private address with `ExtendAllowPrivateAddresses` off
is rejected without contacting the channel layer. -/
theorem C9_circuit_extend_rejects_witness :
    circuit_extend
        ⟨true, false, some ⟨9001, false, true, 7⟩, 9, true, true, true, true⟩
        ⟨false, false⟩ =
      (-1, false) :=
  C9_circuit_extend_rejects _ _
    (Or.inr (Or.inr (Or.inr (Or.inr ⟨⟨9001, false, true, 7⟩, rfl,
      Or.inr (Or.inr (Or.inl ⟨rfl, rfl⟩))⟩))))

/-- Characterization of `pathbias_should_count` by its four inputs. -/
theorem pathbias_should_count_iff (u : Bool) (c : origin_circuit_t) :
    pathbias_should_count u c = true ↔
      (u = true ∧ purposeIgnoredForPathBias c.purpose = false ∧
        c.onehop_tunnel = false ∧ c.desired_path_len ≠ 1) := by
  unfold pathbias_should_count
  split_ifs with h1 h2
  · constructor
    · intro h
      exact absurd h (by simp)
    · intro ⟨hu, hp, _, _⟩
      rcases h1 with h1 | h1
      · rw [hu] at h1
        exact absurd h1 (by simp)
      · rw [hp] at h1
        exact absurd h1 (by simp)
  · constructor
    · intro h
      exact absurd h (by simp)
    · intro ⟨_, _, ho, hl⟩
      rcases h2 with h2 | h2
      · rw [ho] at h2
        exact absurd h2 (by simp)
      · exact hl h2
  · push_neg at h1 h2
    simp only [true_iff]
    refine ⟨?_, ?_, ?_, h2.2⟩
    · cases u
      · exact absurd rfl h1.1
      · rfl
    · cases hpi : purposeIgnoredForPathBias c.purpose
      · rfl
      · exact absurd hpi h1.2
    · cases ho : c.onehop_tunnel
      · rfl
      · exact absurd ho h2.1

/-- Measuring the close rate only latches alert flags: every counter of
the guard is left unchanged. -/
theorem measure_close_rate_counters (g : entry_guard_t) (env : PbEnv) :
    (pathbias_measure_close_rate g env).circ_attempts = g.circ_attempts ∧
    (pathbias_measure_close_rate g env).circ_successes = g.circ_successes ∧
    (pathbias_measure_close_rate g env).successful_circuits_closed =
      g.successful_circuits_closed ∧
    (pathbias_measure_close_rate g env).collapsed_circuits = g.collapsed_circuits ∧
    (pathbias_measure_close_rate g env).unusable_circuits = g.unusable_circuits ∧
    (pathbias_measure_close_rate g env).timeouts = g.timeouts ∧
    (pathbias_measure_close_rate g env).use_attempts = g.use_attempts ∧
    (pathbias_measure_close_rate g env).use_successes = g.use_successes := by
  unfold pathbias_measure_close_rate
  split_ifs <;> simp

/-- A guard already disabled stays disabled through the close-rate
measurement. -/
theorem measure_close_rate_keeps_disabled (g : entry_guard_t) (env : PbEnv)
    (h : g.path_bias_disabled = true) :
    (pathbias_measure_close_rate g env).path_bias_disabled = true := by
  unfold pathbias_measure_close_rate
  split_ifs <;> simp [h]

/-- The probe sender leaves the should-count inputs, the cpath and the
guard-lookup precondition of the circuit unchanged, and only ever moves
the purpose to `PATH_BIAS_TESTING`. -/
theorem send_usable_probe_frame (env : PbEnv) (c : origin_circuit_t) :
    (pathbias_send_usable_probe env c).2.1.onehop_tunnel = c.onehop_tunnel ∧
    (pathbias_send_usable_probe env c).2.1.desired_path_len = c.desired_path_len ∧
    (pathbias_send_usable_probe env c).2.1.cpath = c.cpath ∧
    (pathbias_send_usable_probe env c).2.1.path_state = c.path_state ∧
    ((pathbias_send_usable_probe env c).2.1.purpose = c.purpose ∨
      (pathbias_send_usable_probe env c).2.1.purpose = Purpose.pathBiasTesting) := by
  unfold pathbias_send_usable_probe
  split
  · simp
  · split_ifs <;> try simp
    all_goals cases c.n_chan <;> try simp
    all_goals split_ifs <;> simp

/-- Counting a use attempt never touches the close-mark of the circuit. -/
theorem count_use_attempt_marked (env : PbEnv) (s : PbState) :
    (pathbias_count_use_attempt env s).circ.marked_for_close =
      s.circ.marked_for_close := by
  unfold pathbias_count_use_attempt
  split_ifs <;> try rfl
  all_goals (cases s.gCpath <;> simp)

/-- Marking a counted circuit as successfully used always ends in path
state `useSucceeded` and leaves the close-mark unchanged. -/
theorem mark_use_success_effects (env : PbEnv) (s : PbState)
    (hcount : pathbias_should_count env.useEntryGuards s.circ = true) :
    (pathbias_mark_use_success env s).circ.path_state = PathState.useSucceeded ∧
    (pathbias_mark_use_success env s).circ.marked_for_close =
      s.circ.marked_for_close := by
  unfold pathbias_mark_use_success
  simp only [hcount, not_true, if_false]
  constructor
  · trivial
  · split_ifs with h1
    · simp [count_use_attempt_marked env s]
    · simp

/-- C10: for counted circuits in path state `useSucceeded`,
`pathbias_count_timeout` changes nothing (guard counters included); for
counted circuits in any other path state it increments the guard's
`timeouts` by exactly one when the first hop's guard is known, and
changes nothing when it is not. -/
theorem C10_count_timeout (env : PbEnv) (s : PbState)
    (hcount : pathbias_should_count env.useEntryGuards s.circ = true) :
    (s.circ.path_state = PathState.useSucceeded →
      pathbias_count_timeout env s = s) ∧
    (s.circ.path_state ≠ PathState.useSucceeded →
      (∀ g, firstHopHasEI s.circ = true → s.gCpath = some g →
        pathbias_count_timeout env s =
          { s with gCpath := some ({ g with timeouts := g.timeouts + 1 }) }) ∧
      (firstHopHasEI s.circ = false → pathbias_count_timeout env s = s) ∧
      (s.gCpath = none → pathbias_count_timeout env s = s)) := by
  constructor
  · intro hps
    simp [pathbias_count_timeout, hcount, hps]
  · intro hps
    refine ⟨?_, ?_, ?_⟩
    · intro g hei hg
      simp [pathbias_count_timeout, hcount, hps, hei, hg]
    · intro hei
      simp [pathbias_count_timeout, hcount, hps, hei]
    · intro hg
      simp only [pathbias_count_timeout, hcount, not_true, if_false, hg]
      split_ifs <;> rfl

/-- C10 witness: the timeout theorem at concrete states: a counted
`useSucceeded` circuit is untouched; a counted `buildAttempted` circuit
with a known guard gets its guard's `timeouts` bumped by one. -/
theorem C10_count_timeout_witness :
    pathbias_count_timeout sampleEnv
        ⟨{ baseCirc with path_state := PathState.useSucceeded }, some zeroGuard, none⟩ =
      ⟨{ baseCirc with path_state := PathState.useSucceeded }, some zeroGuard, none⟩ ∧
    pathbias_count_timeout sampleEnv
        ⟨{ baseCirc with path_state := PathState.buildAttempted }, some zeroGuard, none⟩ =
      ⟨{ baseCirc with path_state := PathState.buildAttempted },
        some ({ zeroGuard with timeouts := zeroGuard.timeouts + 1 }), none⟩ := by
  constructor
  · exact (C10_count_timeout sampleEnv _ (by decide)).1 (by decide)
  · exact ((C10_count_timeout sampleEnv _ (by decide)).2 (by decide)).1 zeroGuard
      (by decide) rfl

/-- C4 (amended): for every counted circuit, whenever
`pathbias_check_close` returns 0 the circuit's path state is
`alreadyCounted` after the call. -/
theorem C4_check_close_already_counted (env : PbEnv) (s : PbState) (reason : Nat)
    (hcount : pathbias_should_count env.useEntryGuards s.circ = true)
    (h0 : (pathbias_check_close env s reason).1 = 0) :
    (pathbias_check_close env s reason).2.circ.path_state =
      PathState.alreadyCounted := by
  unfold pathbias_check_close at h0 ⊢
  simp only [hcount, not_true, if_false] at h0 ⊢
  cases hps : s.circ.path_state <;> simp only [hps] at h0 ⊢ <;> try rfl
  by_cases h1 : (pathbias_send_usable_probe env s.circ).1 = 0
  · rw [if_pos h1] at h0
    exact absurd h0 (by norm_num)
  · rw [if_neg h1]

/-- C4 counterexample: for an uncounted origin circuit (purpose
`TESTING`), `pathbias_check_close` returns 0 yet leaves the path state at
`newCirc`, not `alreadyCounted`, refuting the unconditional claim. -/
theorem C4_counterexample :
    (pathbias_check_close sampleEnv
        ⟨{ baseCirc with purpose := Purpose.testing }, none, none⟩ 9).1 = 0 ∧
    (pathbias_check_close sampleEnv
        ⟨{ baseCirc with purpose := Purpose.testing }, none, none⟩ 9).2.circ.path_state ≠
      PathState.alreadyCounted := by
  decide

/-- C4 witness: the amended theorem at a concrete counted circuit closed
in state `useFailed`: the call returns 0 and the path state ends at
`alreadyCounted`. -/
theorem C4_check_close_already_counted_witness :
    (pathbias_check_close sampleEnv
        ⟨{ baseCirc with path_state := PathState.useFailed }, some zeroGuard, none⟩
        9).2.circ.path_state = PathState.alreadyCounted :=
  C4_check_close_already_counted sampleEnv
    ⟨{ baseCirc with path_state := PathState.useFailed }, some zeroGuard, none⟩ 9
    (by decide) (by decide)

/-- The consensus-parameter lookup stays inside its clamping range
whenever the default does. -/
theorem networkstatus_get_param_bounds (v : Option Int) (dflt minVal maxVal : Int)
    (h1 : minVal ≤ dflt) (h2 : dflt ≤ maxVal) :
    minVal ≤ networkstatus_get_param v dflt minVal maxVal ∧
      networkstatus_get_param v dflt minVal maxVal ≤ maxVal := by
  cases v <;> simp only [networkstatus_get_param] <;> first | omega | (split_ifs <;> omega)

/-- C3: when `circ_attempts` exceeds the scale threshold (default 300,
from `pathbias_get_scale_threshold` with the option unset), scaling
multiplies `circ_attempts`, `circ_successes`, `timeouts`,
`successful_circuits_closed`, `collapsed_circuits` and
`unusable_circuits` by `scale_ratio = pb_multfactor/pb_scalefactor`, a
value in `(0, 1]` with default `1/2`, after first subtracting the
currently open circuits from `circ_attempts` (and the built-but-unclosed
ones from `circ_successes`) and re-adding them after the
multiplication. -/
theorem C3_scale_close_rates (g : entry_guard_t) (env : PbEnv)
    (multParam scaleParam : Option Int)
    (hratio : env.scaleRatio = pathbias_get_scale_ratio multParam scaleParam)
    (hcross : env.scaleThreshold < g.circ_attempts) :
    (0 < env.scaleRatio ∧ env.scaleRatio ≤ 1) ∧
    pathbias_get_scale_ratio none none = 1 / 2 ∧
    pathbias_get_scale_threshold (-1) none = 300 ∧
    pathbias_scale_close_rates g env =
      { g with
        circ_attempts :=
          (g.circ_attempts -
              ((env.openCircsInStates PathState.buildAttempted
                  PathState.buildAttempted : ℚ) +
                (env.openCircsInStates PathState.buildSucceeded
                  PathState.useFailed : ℚ))) * env.scaleRatio +
            ((env.openCircsInStates PathState.buildAttempted
                PathState.buildAttempted : ℚ) +
              (env.openCircsInStates PathState.buildSucceeded
                PathState.useFailed : ℚ)),
        circ_successes :=
          (g.circ_successes -
              (env.openCircsInStates PathState.buildSucceeded
                PathState.useFailed : ℚ)) * env.scaleRatio +
            (env.openCircsInStates PathState.buildSucceeded
              PathState.useFailed : ℚ),
        timeouts := g.timeouts * env.scaleRatio,
        successful_circuits_closed := g.successful_circuits_closed * env.scaleRatio,
        collapsed_circuits := g.collapsed_circuits * env.scaleRatio,
        unusable_circuits := g.unusable_circuits * env.scaleRatio } := by
  refine ⟨?_, by norm_num [pathbias_get_scale_ratio, networkstatus_get_param],
    by norm_num [pathbias_get_scale_threshold, networkstatus_get_param], ?_⟩
  · rw [hratio]
    unfold pathbias_get_scale_ratio
    have hd := networkstatus_get_param_bounds scaleParam 2 2 2147483647
      (by norm_num) (by norm_num)
    have hm := networkstatus_get_param_bounds multParam 1 1
      (networkstatus_get_param scaleParam 2 2 2147483647)
      (by norm_num) (le_trans (by norm_num) hd.1)
    have hdpos : (0:ℚ) < ((networkstatus_get_param scaleParam 2 2 2147483647 : Int) : ℚ) := by
      exact_mod_cast lt_of_lt_of_le (by norm_num) hd.1
    constructor
    · apply div_pos
      · exact_mod_cast lt_of_lt_of_le (by norm_num) hm.1
      · exact hdpos
    · rw [div_le_one hdpos]
      exact_mod_cast hm.2
  · unfold pathbias_scale_close_rates
    rw [if_pos hcross]

/-- C3 witness: the scaling theorem at the S4 seed (301 attempts, 250
successes, 240 closed, no open circuits, default ratio 1/2 and threshold
300): scaling yields 150.5/125/120 and the subsequent attempt increment
ends at 151.5. -/
theorem C3_scale_close_rates_witness :
    (pathbias_scale_close_rates seededGuard sampleEnv).circ_attempts = 301/2 ∧
    (pathbias_scale_close_rates seededGuard sampleEnv).circ_successes = 125 ∧
    (pathbias_scale_close_rates seededGuard sampleEnv).successful_circuits_closed = 120 ∧
    (entry_guard_inc_circ_attempt_count seededGuard sampleEnv).2.circ_attempts = 303/2 := by
  have h := C3_scale_close_rates seededGuard sampleEnv none none
    (by norm_num [sampleEnv, pathbias_get_scale_ratio, networkstatus_get_param])
    (by norm_num [sampleEnv, seededGuard, zeroGuard])
  rw [h.2.2.2]
  refine ⟨?_, ?_, ?_, ?_⟩
  · norm_num [sampleEnv, seededGuard, zeroGuard]
  · norm_num [sampleEnv, seededGuard, zeroGuard]
  · norm_num [sampleEnv, seededGuard, zeroGuard]
  · norm_num [entry_guard_inc_circ_attempt_count, pathbias_measure_close_rate,
      pathbias_scale_close_rates, pathbias_get_close_success_count,
      sampleEnv, seededGuard, zeroGuard]

/-- C2: counting the build attempt for a counted, unopened circuit whose
second hop awaits keys, in path state `newCirc`, with the first hop's
guard found by identity digest: the path state moves to `buildAttempted`;
unless the guard is disabled after the close-rate check, `circ_attempts`
is incremented by exactly 1 on the guard obtained by first running
`pathbias_measure_close_rate` and `pathbias_scale_close_rates`, and 0 is
returned; if the guard is disabled the counters are unchanged and the
negative `TORPROTOCOL` reason is returned. -/
theorem C2_count_build_attempt (env : PbEnv) (s : PbState) (g : entry_guard_t)
    (hcount : pathbias_should_count env.useEntryGuards s.circ = true)
    (hnew : pathbias_is_new_circ_attempt s.circ = true)
    (hopen : s.circ.has_opened = false)
    (hps : s.circ.path_state = PathState.newCirc)
    (hei : firstHopHasEI s.circ = true)
    (hg : s.gCpath = some g) :
    (pathbias_count_build_attempt env s).2.circ.path_state =
      PathState.buildAttempted ∧
    ((pathbias_measure_close_rate g env).path_bias_disabled = false →
      (pathbias_count_build_attempt env s).1 = 0 ∧
      (pathbias_count_build_attempt env s).2.gCpath =
        some ({ pathbias_scale_close_rates (pathbias_measure_close_rate g env) env with
          circ_attempts :=
            (pathbias_scale_close_rates (pathbias_measure_close_rate g env)
                env).circ_attempts + 1 })) ∧
    ((pathbias_measure_close_rate g env).path_bias_disabled = true →
      (pathbias_count_build_attempt env s).1 = -END_CIRC_REASON_TORPROTOCOL ∧
      (pathbias_count_build_attempt env s).1 < 0 ∧
      (pathbias_count_build_attempt env s).2.gCpath =
        some (pathbias_measure_close_rate g env) ∧
      (pathbias_measure_close_rate g env).circ_attempts = g.circ_attempts) := by
  unfold pathbias_count_build_attempt entry_guard_inc_circ_attempt_count
  simp only [hcount, hnew, hopen, hei, hg, hps, not_true, Bool.false_eq_true, if_false,
    if_true]
  by_cases hd : (pathbias_measure_close_rate g env).path_bias_disabled
  · simp only [hd, if_true]
    norm_num [END_CIRC_REASON_TORPROTOCOL]
    exact (measure_close_rate_counters g env).1
  · simp only [hd, Bool.false_eq_true, if_false]
    norm_num

/-- C2 witness: the attempt-counting theorem at a concrete counted
circuit with a fresh guard: returns 0, moves the path state to
`buildAttempted` and bumps `circ_attempts` from 0 to 1 (measuring and
scaling leave a fresh guard untouched). -/
theorem C2_count_build_attempt_witness :
    (pathbias_count_build_attempt sampleEnv ⟨attemptCirc, some zeroGuard, none⟩).1 = 0 ∧
    (pathbias_count_build_attempt sampleEnv
        ⟨attemptCirc, some zeroGuard, none⟩).2.circ.path_state =
      PathState.buildAttempted ∧
    (pathbias_count_build_attempt sampleEnv ⟨attemptCirc, some zeroGuard, none⟩).2.gCpath =
      some ({ zeroGuard with circ_attempts := zeroGuard.circ_attempts + 1 }) := by
  have hmeas : pathbias_measure_close_rate zeroGuard sampleEnv = zeroGuard := by
    norm_num [pathbias_measure_close_rate, sampleEnv, zeroGuard]
  have hscale : pathbias_scale_close_rates zeroGuard sampleEnv = zeroGuard := by
    norm_num [pathbias_scale_close_rates, sampleEnv, zeroGuard]
  have h := C2_count_build_attempt sampleEnv ⟨attemptCirc, some zeroGuard, none⟩ zeroGuard
    (by decide) (by decide) (by decide) (by decide) (by decide) rfl
  rw [hmeas] at h
  have hdis : zeroGuard.path_bias_disabled = false := rfl
  refine ⟨(h.2.1 hdis).1, h.1, ?_⟩
  rw [(h.2.1 hdis).2, hscale]

/-- C5: when the end-of-life probe is successfully emitted
(`pathbias_send_usable_probe` returns 0), the circuit's purpose is
`PATH_BIAS_TESTING`, the stored nonce is the random value masked to its
low 24 bits, the `RELAY_BEGIN` payload is the string `"0.a.b.c:25"` for
that nonce, the stored probe stream id is nonzero, `timestamp_began` and
`timestamp_dirty` are updated; and `pathbias_check_close` on such a
circuit in state `useAttempted` returns -1 (close deferred). -/
theorem C5_send_usable_probe (env : PbEnv) (c : origin_circuit_t)
    (h0 : (pathbias_send_usable_probe env c).1 = 0) :
    (pathbias_send_usable_probe env c).2.1.purpose = Purpose.pathBiasTesting ∧
    (pathbias_send_usable_probe env c).2.1.pathbias_probe_nonce =
      env.randNonce &&& 16777215 ∧
    (pathbias_send_usable_probe env c).2.1.pathbias_probe_nonce < 16777216 ∧
    (pathbias_send_usable_probe env c).2.2 =
      some ("0." ++ toString ((env.randNonce &&& 16777215) / 65536 % 256) ++ "." ++
        toString ((env.randNonce &&& 16777215) / 256 % 256) ++ "." ++
        toString ((env.randNonce &&& 16777215) % 256) ++ ":25") ∧
    (pathbias_send_usable_probe env c).2.1.pathbias_probe_id = env.streamId ∧
    (pathbias_send_usable_probe env c).2.1.pathbias_probe_id ≠ 0 ∧
    (pathbias_send_usable_probe env c).2.1.timestamp_began = env.now ∧
    (pathbias_send_usable_probe env c).2.1.timestamp_dirty = env.now ∧
    (∀ s : PbState, s.circ = c → ∀ reason : Nat,
      s.circ.path_state = PathState.useAttempted →
      pathbias_should_count env.useEntryGuards s.circ = true →
      (pathbias_check_close env s reason).1 = -1) := by
  have h0' := h0
  have hmask : env.randNonce &&& 16777215 < 16777216 :=
    lt_of_le_of_lt Nat.and_le_right (by norm_num)
  have hclose : ∀ s : PbState, s.circ = c → ∀ reason : Nat,
      s.circ.path_state = PathState.useAttempted →
      pathbias_should_count env.useEntryGuards s.circ = true →
      (pathbias_check_close env s reason).1 = -1 := by
    intro s hs reason hps hcnt
    unfold pathbias_check_close
    simp only [hcnt, not_true, if_false, hps]
    rw [hs, if_pos h0']
  unfold pathbias_send_usable_probe at h0 ⊢
  obtain hl | ⟨lastHop, hl⟩ : c.cpath.getLast? = none ∨ ∃ x, c.cpath.getLast? = some x := by
    cases c.cpath.getLast? <;> simp
  · simp [hl] at h0
  · simp only [hl] at h0 ⊢
    by_cases h1 : lastHop.state ≠ CpathState.opened
    · rw [if_pos h1] at h0
      exact absurd h0 (by norm_num)
    · rw [if_neg h1] at h0 ⊢
      by_cases h2 : c.purpose = Purpose.pathBiasTesting ∧ c.pathbias_probe_id ≠ 0
      · rw [if_pos h2] at h0
        exact absurd h0 (by norm_num)
      · rw [if_neg h2] at h0 ⊢
        obtain hn | ⟨ch, hn⟩ : c.n_chan = none ∨ ∃ x, c.n_chan = some x := by
          cases c.n_chan <;> simp
        · simp [hn] at h0
        · simp only [hn] at h0 ⊢
          by_cases h3 : ch.state ≠ ChanState.opened ∧ ch.state ≠ ChanState.maint
          · rw [if_pos h3] at h0
            exact absurd h0 (by norm_num)
          · rw [if_neg h3] at h0 ⊢
            by_cases h4 : env.streamId = 0
            · rw [if_pos h4] at h0
              exact absurd h0 (by norm_num)
            · rw [if_neg h4] at h0 ⊢
              by_cases h5 : ¬env.relaySendOk
              · rw [if_pos h5] at h0
                exact absurd h0 (by norm_num)
              · rw [if_neg h5] at h0 ⊢
                refine ⟨rfl, rfl, hmask, ?_, rfl, h4, rfl, rfl, hclose⟩
                have hz : (env.randNonce &&& 16777215) / 16777216 % 256 = 0 := by
                  rw [Nat.div_eq_of_lt hmask]
                show some (probePayload (env.randNonce &&& 16777215)) = _
                unfold probePayload tor_dup_ip
                rw [hz]
                rw [show (toString (0:Nat) ++ "." : String) = "0." from rfl]

/-- C5 witness: the probe theorem at a concrete circuit in state
`useAttempted` with an open last hop and open channel: the probe is sent,
the purpose changes, the stream id is nonzero, and the enclosing close
check defers with -1. -/
theorem C5_send_usable_probe_witness :
    (pathbias_send_usable_probe sampleEnv
        { baseCirc with path_state := PathState.useAttempted }).1 = 0 ∧
    (pathbias_send_usable_probe sampleEnv
        { baseCirc with path_state := PathState.useAttempted }).2.1.purpose =
      Purpose.pathBiasTesting ∧
    (pathbias_send_usable_probe sampleEnv
        { baseCirc with path_state := PathState.useAttempted }).2.1.pathbias_probe_id ≠
      0 ∧
    (pathbias_check_close sampleEnv
        ⟨{ baseCirc with path_state := PathState.useAttempted }, some zeroGuard, none⟩
        10).1 = -1 := by
  have h0 : (pathbias_send_usable_probe sampleEnv
      { baseCirc with path_state := PathState.useAttempted }).1 = 0 := by decide
  have h := C5_send_usable_probe sampleEnv _ h0
  exact ⟨h0, h.1, h.2.2.2.2.2.1,
    h.2.2.2.2.2.2.2.2 ⟨{ baseCirc with path_state := PathState.useAttempted },
      some zeroGuard, none⟩ rfl 10 (by decide) (by decide)⟩

/-- C6 (amended): for a counted circuit in purpose `PATH_BIAS_TESTING`
that is not yet marked for close, `pathbias_check_probe_response` counts
the probe as a use success (returns 0, marks `useSucceeded`, closes with
`FINISHED`) exactly when the cell is a `RELAY_END` whose reason byte is
`EXITPOLICY`, whose stream id equals the stored probe stream id, whose
length is at least 9, and whose echoed IPv4 address equals the stored
nonce; otherwise it returns a negative value and changes nothing. -/
theorem C6_probe_response (env : PbEnv) (s : PbState) (cell : relay_cell_t)
    (hpurpose : s.circ.purpose = Purpose.pathBiasTesting)
    (hcount : pathbias_should_count env.useEntryGuards s.circ = true)
    (hmark : s.circ.marked_for_close = none) :
    (((pathbias_check_probe_response env s cell).1 = 0 ∧
      (pathbias_check_probe_response env s cell).2.circ.path_state =
        PathState.useSucceeded ∧
      (pathbias_check_probe_response env s cell).2.circ.marked_for_close =
        some END_CIRC_REASON_FINISHED) ↔
      (cell.command = RELAY_COMMAND_END ∧
        (if 0 < cell.length then cell.reasonByte else END_STREAM_REASON_MISC) =
          END_STREAM_REASON_EXITPOLICY ∧
        s.circ.pathbias_probe_id = cell.stream_id ∧
        9 ≤ cell.length ∧
        cell.ipv4Field = s.circ.pathbias_probe_nonce)) ∧
    (¬(cell.command = RELAY_COMMAND_END ∧
        (if 0 < cell.length then cell.reasonByte else END_STREAM_REASON_MISC) =
          END_STREAM_REASON_EXITPOLICY ∧
        s.circ.pathbias_probe_id = cell.stream_id ∧
        9 ≤ cell.length ∧
        cell.ipv4Field = s.circ.pathbias_probe_nonce) →
      (pathbias_check_probe_response env s cell).1 < 0 ∧
      (pathbias_check_probe_response env s cell).2 = s) := by
  have hmark1 := (mark_use_success_effects env s hcount).2
  have hstate1 := (mark_use_success_effects env s hcount).1
  simp only [pathbias_check_probe_response]
  by_cases hc1 : cell.command = RELAY_COMMAND_END ∧
      (if 0 < cell.length then cell.reasonByte else END_STREAM_REASON_MISC) =
        END_STREAM_REASON_EXITPOLICY ∧
      s.circ.pathbias_probe_id = cell.stream_id
  · rw [if_pos hc1]
    by_cases hlen : cell.length < 9
    · rw [if_pos hlen]
      constructor
      · constructor
        · intro hL
          exact absurd hL.1 (by norm_num [END_CIRC_REASON_TORPROTOCOL])
        · intro hR
          omega
      · intro _
        exact ⟨by norm_num [END_CIRC_REASON_TORPROTOCOL], rfl⟩
    · rw [if_neg hlen]
      by_cases hip : cell.ipv4Field = s.circ.pathbias_probe_nonce
      · rw [if_pos hip]
        have hmarked : (circuit_mark_for_close (pathbias_mark_use_success env s).circ
            END_CIRC_REASON_FINISHED).marked_for_close = some END_CIRC_REASON_FINISHED := by
          unfold circuit_mark_for_close
          rw [hmark1, hmark]
        have hstate2 : (circuit_mark_for_close (pathbias_mark_use_success env s).circ
            END_CIRC_REASON_FINISHED).path_state = PathState.useSucceeded := by
          unfold circuit_mark_for_close
          rw [hmark1, hmark]
          exact hstate1
        constructor
        · constructor
          · intro _
            exact ⟨hc1.1, hc1.2.1, hc1.2.2, by omega, hip⟩
          · intro _
            exact ⟨rfl, hstate2, hmarked⟩
        · intro hR
          exact absurd ⟨hc1.1, hc1.2.1, hc1.2.2, by omega, hip⟩ hR
      · rw [if_neg hip]
        constructor
        · constructor
          · intro hL
            exact absurd hL.1 (by norm_num)
          · intro hR
            exact absurd hR.2.2.2.2 hip
        · intro _
          exact ⟨by norm_num, rfl⟩
  · rw [if_neg hc1]
    constructor
    · constructor
      · intro hL
        exact absurd hL.1 (by norm_num)
      · intro hR
        exact absurd ⟨hR.1, hR.2.1, hR.2.2.1⟩ hc1
    · intro _
      exact ⟨by norm_num, rfl⟩

/-- C6 witness: the amended theorem at a concrete probing circuit (probe
stream 5, nonce 7) receiving a matching `RELAY_END`/`EXITPOLICY` cell of
length 9 on stream 5 echoing address 7: counted as use success and closed
with `FINISHED`. -/
theorem C6_probe_response_witness :
    (pathbias_check_probe_response sampleEnv ⟨probingCirc, some zeroGuard, none⟩
        ⟨3, 9, 5, 4, 7⟩).1 = 0 ∧
    (pathbias_check_probe_response sampleEnv ⟨probingCirc, some zeroGuard, none⟩
        ⟨3, 9, 5, 4, 7⟩).2.circ.path_state = PathState.useSucceeded ∧
    (pathbias_check_probe_response sampleEnv ⟨probingCirc, some zeroGuard, none⟩
        ⟨3, 9, 5, 4, 7⟩).2.circ.marked_for_close = some END_CIRC_REASON_FINISHED :=
  (C6_probe_response sampleEnv ⟨probingCirc, some zeroGuard, none⟩ ⟨3, 9, 5, 4, 7⟩
      (by decide) (by decide) rfl).1.mpr (by decide)

/-- C6 counterexample: a `RELAY_END` cell with reason `EXITPOLICY` whose
echoed address equals the stored nonce but whose stream id (6) differs
from the probe's (5) is rejected with -1 and does not mark use success,
refuting the claim that command, reason and address alone decide
acceptance. -/
theorem C6_counterexample :
    ((⟨3, 9, 6, 4, 7⟩ : relay_cell_t).command = RELAY_COMMAND_END ∧
      (⟨3, 9, 6, 4, 7⟩ : relay_cell_t).reasonByte = END_STREAM_REASON_EXITPOLICY ∧
      0 < (⟨3, 9, 6, 4, 7⟩ : relay_cell_t).length ∧
      (⟨3, 9, 6, 4, 7⟩ : relay_cell_t).ipv4Field = probingCirc.pathbias_probe_nonce) ∧
    (pathbias_check_probe_response sampleEnv ⟨probingCirc, some zeroGuard, none⟩
        ⟨3, 9, 6, 4, 7⟩).1 = -1 ∧
    (pathbias_check_probe_response sampleEnv ⟨probingCirc, some zeroGuard, none⟩
        ⟨3, 9, 6, 4, 7⟩).2.circ.path_state ≠ PathState.useSucceeded := by
  decide

/-- Counting a collapse on a counted circuit with a known first-hop guard
bumps exactly `collapsed_circuits`. -/
theorem count_collapse_eq (env : PbEnv) (s : PbState) (g : entry_guard_t)
    (hcount : pathbias_should_count env.useEntryGuards s.circ = true)
    (hei : firstHopHasEI s.circ = true) (hg : s.gCpath = some g) :
    pathbias_count_collapse env s =
      { s with gCpath := some ({ g with
          collapsed_circuits := g.collapsed_circuits + 1 }) } := by
  unfold pathbias_count_collapse
  simp [hcount, hei, hg]

/-- Counting a successful close on a counted circuit with a known
first-hop guard bumps exactly `successful_circuits_closed`. -/
theorem count_successful_close_eq (env : PbEnv) (s : PbState) (g : entry_guard_t)
    (hcount : pathbias_should_count env.useEntryGuards s.circ = true)
    (hei : firstHopHasEI s.circ = true) (hg : s.gCpath = some g) :
    pathbias_count_successful_close env s =
      { s with gCpath := some ({ g with
          successful_circuits_closed := g.successful_circuits_closed + 1 }) } := by
  unfold pathbias_count_successful_close
  simp [hcount, hei, hg]

/-- Counting a use failure on a counted circuit with a known first-hop
guard bumps exactly `unusable_circuits`. -/
theorem count_use_failed_eq (env : PbEnv) (s : PbState) (g : entry_guard_t)
    (hcount : pathbias_should_count env.useEntryGuards s.circ = true)
    (hei : firstHopHasEI s.circ = true) (hg : s.gCpath = some g) :
    pathbias_count_use_failed env s =
      { s with gCpath := some ({ g with
          unusable_circuits := g.unusable_circuits + 1 }) } := by
  unfold pathbias_count_use_failed
  simp [hcount, hei, hg]

/-- Counting a use success on a counted `useSucceeded` circuit with a
known first-hop guard bumps exactly `use_successes`. -/
theorem count_use_success_eq (env : PbEnv) (s : PbState) (g : entry_guard_t)
    (hcount : pathbias_should_count env.useEntryGuards s.circ = true)
    (hps : s.circ.path_state = PathState.useSucceeded)
    (hei : firstHopHasEI s.circ = true) (hg : s.gCpath = some g) :
    pathbias_count_use_success env s =
      { s with gCpath := some ({ g with
          use_successes := g.use_successes + 1 }) } := by
  unfold pathbias_count_use_success
  simp [hcount, hps, hei, hg]

/-- A counted circuit remains counted through the probe sender: the
sender never touches the guard settings and moves the purpose only to
`PATH_BIAS_TESTING`, which the accountant counts. -/
theorem should_count_after_probe (env : PbEnv) (c : origin_circuit_t)
    (hcount : pathbias_should_count env.useEntryGuards c = true) :
    pathbias_should_count env.useEntryGuards
      (pathbias_send_usable_probe env c).2.1 = true := by
  rcases (pathbias_should_count_iff _ _).mp hcount with ⟨hu, hp, ho, hl⟩
  apply (pathbias_should_count_iff _ _).mpr
  obtain ⟨h1, h2, h3, _, h5⟩ := send_usable_probe_frame env c
  refine ⟨hu, ?_, by rw [h1]; exact ho, by rw [h2]; exact hl⟩
  rcases h5 with h5 | h5
  · rw [h5]
    exact hp
  · rw [h5]
    decide

/-- The probe sender preserves the first hop and hence the guard-lookup
precondition. -/
theorem firstHopHasEI_after_probe (env : PbEnv) (c : origin_circuit_t) :
    firstHopHasEI (pathbias_send_usable_probe env c).2.1 = firstHopHasEI c := by
  unfold firstHopHasEI
  rw [(send_usable_probe_frame env c).2.2.1]

/-- C1: on a counted circuit with a known first-hop guard,
`pathbias_check_close` updates the guard exactly per the close table:
`buildSucceeded` collapses on a `REMOTE`-flagged reason, or on a stripped
`CHANNEL_CLOSED` reason when the channel was not closed on request, and
otherwise counts a successful close; `useSucceeded` counts both a
successful close and a use success; `useFailed` counts an unusable
circuit; `useAttempted` defers the close with -1 when the probe can be
sent and otherwise counts an unusable circuit; `newCirc`,
`buildAttempted` and `alreadyCounted` change no guard counter. -/
theorem C1_check_close_accounting (env : PbEnv) (s : PbState) (g : entry_guard_t)
    (reason : Nat)
    (hcount : pathbias_should_count env.useEntryGuards s.circ = true)
    (hei : firstHopHasEI s.circ = true)
    (hg : s.gCpath = some g) :
    (s.circ.path_state = PathState.buildSucceeded →
      (reason &&& END_CIRC_REASON_FLAG_REMOTE ≠ 0 →
        (pathbias_check_close env s reason).1 = 0 ∧
        (pathbias_check_close env s reason).2.gCpath =
          some ({ g with collapsed_circuits := g.collapsed_circuits + 1 })) ∧
      (reason &&& END_CIRC_REASON_FLAG_REMOTE = 0 →
        stripRemote reason = END_CIRC_REASON_CHANNEL_CLOSED →
        chanClosedNotByUs s.circ = true →
        (pathbias_check_close env s reason).1 = 0 ∧
        (pathbias_check_close env s reason).2.gCpath =
          some ({ g with collapsed_circuits := g.collapsed_circuits + 1 })) ∧
      (reason &&& END_CIRC_REASON_FLAG_REMOTE = 0 →
        ¬(stripRemote reason = END_CIRC_REASON_CHANNEL_CLOSED ∧
          chanClosedNotByUs s.circ = true) →
        (pathbias_check_close env s reason).1 = 0 ∧
        (pathbias_check_close env s reason).2.gCpath =
          some ({ g with
            successful_circuits_closed := g.successful_circuits_closed + 1 }))) ∧
    (s.circ.path_state = PathState.useSucceeded →
      (pathbias_check_close env s reason).1 = 0 ∧
      (pathbias_check_close env s reason).2.gCpath =
        some ({ g with
          successful_circuits_closed := g.successful_circuits_closed + 1,
          use_successes := g.use_successes + 1 })) ∧
    (s.circ.path_state = PathState.useFailed →
      (pathbias_check_close env s reason).1 = 0 ∧
      (pathbias_check_close env s reason).2.gCpath =
        some ({ g with unusable_circuits := g.unusable_circuits + 1 })) ∧
    (s.circ.path_state = PathState.useAttempted →
      ((pathbias_send_usable_probe env s.circ).1 = 0 →
        (pathbias_check_close env s reason).1 = -1 ∧
        (pathbias_check_close env s reason).2.gCpath = some g) ∧
      ((pathbias_send_usable_probe env s.circ).1 ≠ 0 →
        (pathbias_check_close env s reason).1 = 0 ∧
        (pathbias_check_close env s reason).2.gCpath =
          some ({ g with unusable_circuits := g.unusable_circuits + 1 }))) ∧
    ((s.circ.path_state = PathState.newCirc ∨
        s.circ.path_state = PathState.buildAttempted ∨
        s.circ.path_state = PathState.alreadyCounted) →
      (pathbias_check_close env s reason).1 = 0 ∧
      (pathbias_check_close env s reason).2.gCpath = some g) := by
  refine ⟨?_, ?_, ?_, ?_, ?_⟩
  · intro hps
    refine ⟨?_, ?_, ?_⟩
    · intro hrem
      unfold pathbias_check_close
      simp only [hcount, not_true, if_false, hps, if_pos hrem]
      rw [count_collapse_eq env s g hcount hei hg]
      exact ⟨by trivial, by trivial⟩
    · intro hrem hcc hcb
      unfold pathbias_check_close
      simp only [hcount, not_true, if_false, hps]
      rw [if_neg (by omega), if_pos ⟨hcc, hcb⟩]
      rw [count_collapse_eq env s g hcount hei hg]
      exact ⟨by trivial, by trivial⟩
    · intro hrem hnot
      unfold pathbias_check_close
      simp only [hcount, not_true, if_false, hps]
      rw [if_neg (by omega), if_neg (by exact fun h => hnot ⟨h.1, h.2⟩)]
      rw [count_successful_close_eq env s g hcount hei hg]
      exact ⟨by trivial, by trivial⟩
  · intro hps
    unfold pathbias_check_close
    simp only [hcount, not_true, if_false, hps]
    rw [count_successful_close_eq env s g hcount hei hg]
    rw [count_use_success_eq env
      ({ s with gCpath := some ({ g with
        successful_circuits_closed := g.successful_circuits_closed + 1 }) })
      ({ g with successful_circuits_closed := g.successful_circuits_closed + 1 })
      hcount hps hei rfl]
    exact ⟨by trivial, by trivial⟩
  · intro hps
    unfold pathbias_check_close
    simp only [hcount, not_true, if_false, hps]
    rw [count_use_failed_eq env s g hcount hei hg]
    exact ⟨by trivial, by trivial⟩
  · intro hps
    constructor
    · intro hp
      unfold pathbias_check_close
      simp only [hcount, not_true, if_false, hps, if_pos hp]
      exact ⟨by trivial, by rw [hg]⟩
    · intro hp
      unfold pathbias_check_close
      simp only [hcount, not_true, if_false, hps, if_neg hp]
      rw [count_use_failed_eq env
        ⟨(pathbias_send_usable_probe env s.circ).2.1, s.gCpath, s.gChan⟩ g
        (should_count_after_probe env s.circ hcount)
        (by rw [firstHopHasEI_after_probe env s.circ]; exact hei) hg]
      exact ⟨by trivial, by trivial⟩
  · intro hps
    rcases hps with hps | hps | hps <;>
      (unfold pathbias_check_close
       simp only [hcount, not_true, if_false, hps]
       exact ⟨by trivial, by rw [hg]⟩)

/-- C1 witness: the close-accounting theorem at a concrete counted
circuit closed in state `useSucceeded` with a fresh guard: the call
returns 0 and bumps both `successful_circuits_closed` and
`use_successes`. -/
theorem C1_check_close_accounting_witness :
    (pathbias_check_close sampleEnv
        ⟨{ baseCirc with path_state := PathState.useSucceeded }, some zeroGuard, none⟩
        9).1 = 0 ∧
    (pathbias_check_close sampleEnv
        ⟨{ baseCirc with path_state := PathState.useSucceeded }, some zeroGuard, none⟩
        9).2.gCpath =
      some ({ zeroGuard with
        successful_circuits_closed := zeroGuard.successful_circuits_closed + 1,
        use_successes := zeroGuard.use_successes + 1 }) :=
  (C1_check_close_accounting sampleEnv
      ⟨{ baseCirc with path_state := PathState.useSucceeded }, some zeroGuard, none⟩
      zeroGuard 9 (by decide) (by decide) rfl).2.1 rfl
